import Mathlib

/-!
Verification of the `reprfn` attribute transformation pipeline (crate
`reprfn`, `src/lib.rs`).

The pipeline: a fixed ABI registry (`ABIS`, 31 entries) with a validator
(`validate_abi`); a configuration parser over `key = "value"` pairs that
accumulates a `ParseState` (optional abi / name / feature / mode plus the
two capability flags `no_mangle` and `support_generics`); mode inference
from the declaration body when `mode` is unset; and a synthesizer that
emits either an export declaration or a foreign (`extern`) block.

Machine syntax (spans, token streams) is abstracted: string literal values
are plain `String`s, the function item is a record of its signature pieces
and body statements, and the emitted token stream is a record with one
field per quoted fragment of the source's `quote!` templates.
-/

namespace Reprfn

/-- The 31-entry ABI registry, `const ABIS: [&str; 31]` in the source.
The sentinel `"none"` is itself the final registry entry. -/
def ABIS : List String :=
  ["Rust", "C", "C-unwind", "C-cmse-nonsecure-call", "C-cmse-nonsecure-entry", "cdecl", "rust-call",
   "stdcall", "stdcall-unwind", "fastcall", "vectorcall", "thiscall", "thiscall-unwind", "aapcs",
   "win64", "sysv64", "ptx-kernel", "msp430-interrupt", "x86-interrupt", "efiapi", "avr-interrupt",
   "avr-non-blocking-interrupt", "riscv-interrupt-m", "riscv-interrupt-s", "wasm", "system",
   "system-unwind", "rust-intrinsic", "platform-intrinsic", "unadjusted", "none"]

/-- `fn valid_abi(abi: &str) -> bool { ABIS.contains(&abi) }` -/
def valid_abi (abi : String) : Bool :=
  ABIS.contains abi

/-- Structured parse errors. `invalidAbi` carries the rejected value and the
list the source interpolates with `{:?}` into its message; `invalidMode`
carries the rejected value and the three legal choices named by the
source's message. -/
inductive ParseError where
  | invalidAbi (raw : String) (valid : List String)
  | invalidMode (raw : String) (choices : List String)
deriving DecidableEq, Repr

/-- A single-quote character, used when rendering error messages. -/
def sq : String :=
  String.singleton (Char.ofNat 39)

/-- Rust `{:?}` rendering of a `&[&str]` value: `["a", "b", ...]`. -/
def rustDebugList (xs : List String) : String :=
  "[" ++ String.intercalate ", " (xs.map (fun s => "\"" ++ s ++ "\"")) ++ "]"

/-- The diagnostic message attached to each error by the source
(`format!` calls at lines 28 and 123 of `lib.rs`). -/
def renderError : ParseError → String
  | .invalidAbi raw valid =>
      "Invalid ABI " ++ sq ++ raw ++ sq ++ ", expecting one of " ++ rustDebugList valid
  | .invalidMode raw choices =>
      "invalid mode " ++ sq ++ raw ++ sq ++ ", expecting one of " ++ sq ++ "[" ++
        String.intercalate ", " (choices.map (fun c => sq ++ c ++ sq)) ++ "]" ++ sq

/-- `fn validate_abi(abi: syn::LitStr) -> Result<syn::LitStr, syn::Error>`:
returns the literal unchanged when its value is in the registry, otherwise
an error enumerating the registry. -/
def validate_abi (abi : String) : Except ParseError String :=
  if valid_abi abi then
    Except.ok abi
  else
    Except.error (ParseError.invalidAbi abi ABIS)

/-- `enum Mode { Export, Import }` -/
inductive Mode where
  | Export
  | Import
deriving DecidableEq, Repr

/-- The mutable state accumulated by the attribute parser closure:
`abi`, `name`, `feature`, `no_mangle`, `support_generics`, `mode`
(lines 74-79 of `lib.rs`). -/
structure ParseState where
  abi : Option String
  name : Option String
  feature : Option String
  no_mangle : Bool
  support_generics : Bool
  mode : Option Mode
deriving DecidableEq, Repr

/-- The initial values of the parser state: `abi = None`, `name = None`,
`feature = None`, `no_mangle = true`, `support_generics = false`,
`mode = None`. -/
def initState : ParseState :=
  { abi := none, name := none, feature := none,
    no_mangle := true, support_generics := false, mode := none }

/-- The sentinel collapse applied to each string value:
`if value.value() == "none" { None } else { Some(value) }`. -/
def sentinelToOpt (v : String) : Option String :=
  if v == "none" then none else some v

/-- The `no_mangle` recomputation (lines 89-97): `Some("Rust")`,
`Some("rust-call")` and `Some("rust-intrinsic")` give `false`, everything
else (other conventions, and `None`) gives `true`. -/
def computeNoMangle : Option String → Bool
  | some val =>
      if val == "Rust" then false
      else if val == "rust-call" then false
      else if val == "rust-intrinsic" then false
      else true
  | none => true

/-- The `support_generics` recomputation (lines 98-106): `Some("Rust")`,
`Some("rust-call")` and `Some("rust-intrinsic")` give `true`, everything
else gives `false`. -/
def computeSupportGenerics : Option String → Bool
  | some val =>
      if val == "Rust" then true
      else if val == "rust-call" then true
      else if val == "rust-intrinsic" then true
      else false
  | none => false

/-- The three legal `mode` strings, in the order the source's error message
lists them. -/
def modeChoices : List String :=
  ["none", "import", "export"]

/-- One step of the `syn::meta::parser` closure (lines 81-134): dispatch on
the key, validate and store the value; unrecognized keys are accepted
without effect. -/
def processMeta (st : ParseState) (kv : String × String) : Except ParseError ParseState :=
  if kv.1 == "abi" then
    match validate_abi kv.2 with
    | .error e => Except.error e
    | .ok value =>
        Except.ok { st with
          abi := sentinelToOpt value,
          no_mangle := computeNoMangle (sentinelToOpt value),
          support_generics := computeSupportGenerics (sentinelToOpt value) }
  else if kv.1 == "name" then
    Except.ok { st with name := sentinelToOpt kv.2 }
  else if kv.1 == "mode" then
    if kv.2 == "none" then Except.ok { st with mode := none }
    else if kv.2 == "import" then Except.ok { st with mode := some Mode.Import }
    else if kv.2 == "export" then Except.ok { st with mode := some Mode.Export }
    else Except.error (ParseError.invalidMode kv.2 modeChoices)
  else if kv.1 == "feature" then
    Except.ok { st with feature := sentinelToOpt kv.2 }
  else
    Except.ok st

/-- Run the parser closure over the attribute's key/value pairs from a
given state, stopping at the first error. -/
def parseAttrsFrom (st : ParseState) : List (String × String) → Except ParseError ParseState
  | [] => Except.ok st
  | kv :: rest =>
      match processMeta st kv with
      | .error e => Except.error e
      | .ok st' => parseAttrsFrom st' rest

/-- `syn::parse_macro_input!(attr with parser)`: parse the whole attribute
list starting from the initial state. -/
def parseAttrs (attrs : List (String × String)) : Except ParseError ParseState :=
  parseAttrsFrom initState attrs

/-- The input `syn::ItemFn`, destructured as in lines 173-175: outer
attributes, visibility, the signature fields used by the templates
(constness, unsafety, name, generic parameters and where clause, inputs,
variadic marker, return type), and the body's statement list. -/
structure FnInput where
  attrs : List String
  vis : String
  constness : Bool
  unsafety : Bool
  ident : String
  genParams : List String
  whereClause : Option String
  inputs : List String
  variadic : Bool
  retTy : String
  stmts : List String
deriving DecidableEq, Repr

/-- The generic-parameter fragment `#lt_token #params #gt_token` together
with `#where_clause`, emitted only on the `support_generics` templates. -/
structure GenericsOut where
  params : List String
  whereClause : Option String
deriving DecidableEq, Repr

/-- One emitted function declaration: a field per fragment of the `quote!`
templates (lines 186-227). `noMangle` records whether the
`#[no_mangle]` directive is present, `exportName` whether an
`#[export_name = ...]` directive is present and with which value,
`generics` whether the generic parameter list and where clause are
present, and `body` whether a brace-enclosed statement block follows the
signature (`none` would be a bodyless `fn ...;` declaration). -/
structure OutDecl where
  attrs : List String
  feature : Option String
  exportName : Option String
  noMangle : Bool
  vis : String
  constness : Bool
  unsafety : Bool
  ident : String
  generics : Option GenericsOut
  inputs : List String
  variadic : Bool
  retTy : String
  body : Option (List String)
deriving DecidableEq, Repr

/-- The expanded output: either a plain (export) item, or a foreign block
`extern "abi" { ... }` wrapping one declaration. The `String` argument is
the calling convention of the `extern` fragment. -/
inductive Expanded where
  | exportFn (abi : String) (decl : OutDecl)
  | foreignBlock (abi : String) (decl : OutDecl)
deriving DecidableEq, Repr

/-- `abi_quote` (lines 139-147): the resolved calling convention, `"Rust"`
when `Configuration.abi` is unset. -/
def resolvedAbi : Option String → String
  | some a => a
  | none => "Rust"

/-- Mode inference (lines 178-184): an explicit mode is used directly;
otherwise an empty statement list gives `Import` and a non-empty one
gives `Export`. -/
def inferredMode (mode : Option Mode) (stmts : List String) : Mode :=
  match mode with
  | some m => m
  | none => if stmts.isEmpty then Mode.Import else Mode.Export

/-- The Export templates (lines 187-204): original attributes, feature
guard, rename directive, `#[no_mangle]` when the `no_mangle` flag is set,
original visibility / constness / unsafety, the resolved convention,
generics only under `support_generics`, and the original body block. -/
def exportOut (st : ParseState) (i : FnInput) : OutDecl :=
  { attrs := i.attrs,
    feature := st.feature,
    exportName := st.name,
    noMangle := st.no_mangle,
    vis := i.vis,
    constness := i.constness,
    unsafety := i.unsafety,
    ident := i.ident,
    generics := if st.support_generics then some ⟨i.genParams, i.whereClause⟩ else none,
    inputs := i.inputs,
    variadic := i.variadic,
    retTy := i.retTy,
    body := some i.stmts }

/-- The Import templates (lines 206-226): the declaration placed inside the
foreign block. No `#[no_mangle]` fragment, no constness or unsafety
fragments appear in these templates; the original block `#block` does
appear, so the brace-enclosed statement list is emitted verbatim. -/
def importOut (st : ParseState) (i : FnInput) : OutDecl :=
  { attrs := i.attrs,
    feature := st.feature,
    exportName := st.name,
    noMangle := false,
    vis := i.vis,
    constness := false,
    unsafety := false,
    ident := i.ident,
    generics := if st.support_generics then some ⟨i.genParams, i.whereClause⟩ else none,
    inputs := i.inputs,
    variadic := i.variadic,
    retTy := i.retTy,
    body := some i.stmts }

/-- The `match inferred_mode` at line 186. -/
def synthesize (st : ParseState) (m : Mode) (i : FnInput) : Expanded :=
  match m with
  | Mode.Export => Expanded.exportFn (resolvedAbi st.abi) (exportOut st i)
  | Mode.Import => Expanded.foreignBlock (resolvedAbi st.abi) (importOut st i)

/-- The whole `reprfn` entry point: parse the attribute list, infer the
mode, synthesize the output. -/
def reprfn (attrs : List (String × String)) (i : FnInput) : Except ParseError Expanded :=
  match parseAttrs attrs with
  | .error e => Except.error e
  | .ok st => Except.ok (synthesize st (inferredMode st.mode i.stmts) i)

/-- The invariant tying the two capability flags to the stored `abi`
field: at every point, `no_mangle` and `support_generics` equal their
recomputation from the current `abi`. -/
def flagsOk (st : ParseState) : Prop :=
  st.no_mangle = computeNoMangle st.abi ∧ st.support_generics = computeSupportGenerics st.abi

/-- `pub fn my_function() { }` — an empty-bodied input declaration. -/
def emptyFn : FnInput :=
  { attrs := [], vis := "pub", constness := false, unsafety := false,
    ident := "my_function", genParams := [], whereClause := none,
    inputs := [], variadic := false, retTy := "", stmts := [] }

/-- `pub fn my_function() { return; }` — a one-statement input declaration. -/
def bodyFn : FnInput :=
  { emptyFn with stmts := ["return ;"] }

/-- A const unsafe generic input declaration with a non-empty body. -/
def genericFn : FnInput :=
  { emptyFn with
    constness := true
    unsafety := true
    genParams := ["T"]
    whereClause := some "where T: Sized"
    stmts := ["return ;"] }

/-- The parser state after `abi = "C"`. -/
def stC : ParseState :=
  { initState with abi := some "C" }

/-- The parser state after `abi = "Rust"`. -/
def stRust : ParseState :=
  { initState with
    abi := some "Rust"
    no_mangle := false
    support_generics := true }

/-- The parser state after `abi = "rust-call"`. -/
def stRustCall : ParseState :=
  { initState with
    abi := some "rust-call"
    no_mangle := false
    support_generics := true }

/-- The parser state after `mode = "import"`. -/
def stImport : ParseState :=
  { initState with mode := some Mode.Import }

/-- The parser state after `abi = "stdcall", mode = "import"`. -/
def stStdcallImport : ParseState :=
  { initState with
    abi := some "stdcall"
    mode := some Mode.Import }

theorem computeNoMangle_not (a : Option String) :
    computeNoMangle a = !computeSupportGenerics a := by
  cases a with
  | none => rfl
  | some v =>
    simp only [computeNoMangle, computeSupportGenerics]
    by_cases h1 : v == "Rust" <;> by_cases h2 : v == "rust-call" <;>
      by_cases h3 : v == "rust-intrinsic" <;> simp [h1, h2, h3]

theorem computeNoMangle_eq_false_iff (a : Option String) :
    computeNoMangle a = false ↔
      (a = some "Rust" ∨ a = some "rust-call" ∨ a = some "rust-intrinsic") := by
  cases a with
  | none => simp [computeNoMangle]
  | some v =>
    simp only [computeNoMangle, Option.some.injEq]
    by_cases h1 : v = "Rust"
    · subst h1; simp
    · by_cases h2 : v = "rust-call"
      · subst h2; simp
      · by_cases h3 : v = "rust-intrinsic"
        · subst h3; simp
        · simp [h1, h2, h3]

theorem processMeta_flagsOk (st st' : ParseState) (kv : String × String)
    (hinv : flagsOk st) (h : processMeta st kv = Except.ok st') : flagsOk st' := by
  unfold processMeta at h
  split at h
  · cases hv : validate_abi kv.2 with
    | error e => rw [hv] at h; simp at h
    | ok value => rw [hv] at h; injection h with h; subst h; exact ⟨rfl, rfl⟩
  · split at h
    · injection h with h; subst h; exact hinv
    · split at h
      · split at h
        · injection h with h; subst h; exact hinv
        · split at h
          · injection h with h; subst h; exact hinv
          · split at h
            · injection h with h; subst h; exact hinv
            · simp at h
      · split at h
        · injection h with h; subst h; exact hinv
        · injection h with h; subst h; exact hinv

theorem parseAttrsFrom_flagsOk (l : List (String × String)) :
    ∀ st st' : ParseState, flagsOk st →
      parseAttrsFrom st l = Except.ok st' → flagsOk st' := by
  induction l with
  | nil =>
    intro st st' hinv h
    unfold parseAttrsFrom at h
    injection h with h
    subst h
    exact hinv
  | cons kv rest ih =>
    intro st st' hinv h
    unfold parseAttrsFrom at h
    cases hp : processMeta st kv with
    | error e => rw [hp] at h; simp at h
    | ok st1 =>
      rw [hp] at h
      exact ih st1 st' (processMeta_flagsOk st st1 kv hinv hp) h

theorem parseAttrs_flagsOk (attrs : List (String × String)) (st : ParseState)
    (h : parseAttrs attrs = Except.ok st) : flagsOk st :=
  parseAttrsFrom_flagsOk attrs initState st ⟨rfl, rfl⟩ h

/-- C1: with `abi = "stdcall"`, `mode = "import"` and an empty body, the
output is a foreign block under the stdcall convention and the contained
declaration carries no rename directive — but, contrary to the claim, the
declaration does not consist of the signature only: the Import templates
emit the original brace block (`#block`), so an (empty) body block is
present in the emitted declaration. -/
theorem C1_import_body_emitted :
    reprfn [("abi", "stdcall"), ("mode", "import")] emptyFn =
      Except.ok (Expanded.foreignBlock "stdcall" (importOut stStdcallImport emptyFn)) ∧
    (importOut stStdcallImport emptyFn).exportName = none ∧
    (importOut stStdcallImport emptyFn).body = some [] ∧
    ¬ (importOut stStdcallImport emptyFn).body = none := by
  refine ⟨rfl, rfl, rfl, by simp [importOut, emptyFn]⟩

/-- C2 counterexample: with the `abi` key absent, the synthesizer resolves
the convention to the default `"Rust"`, yet the capability flags are
`(mangles_symbol, supports_generics) = (true, false)`, not `(false, true)`
as the claim requires for a resolved default-convention ABI. -/
theorem C2_counterexample :
    parseAttrs [] = Except.ok initState ∧
    resolvedAbi initState.abi = "Rust" ∧
    ¬ (initState.no_mangle = false ∧ initState.support_generics = true) := by
  refine ⟨rfl, rfl, ?_⟩
  intro h
  exact absurd h.1 (by simp [initState])

/-- C2 (amended): the capability flags are computed from the stored
`Configuration.abi`, not from the resolved convention: flags are
`(false, true)` exactly when the stored abi is `"Rust"`, `"rust-call"` or
`"rust-intrinsic"`, and `(true, false)` in every other case — including
abi unset (key absent or sentinel), where the resolved convention
nevertheless defaults to `"Rust"`. -/
theorem C2_amended_flags (attrs : List (String × String)) (st : ParseState)
    (h : parseAttrs attrs = Except.ok st) :
    ((st.abi = some "Rust" ∨ st.abi = some "rust-call" ∨ st.abi = some "rust-intrinsic") →
      st.no_mangle = false ∧ st.support_generics = true) ∧
    ((st.abi ≠ some "Rust" ∧ st.abi ≠ some "rust-call" ∧ st.abi ≠ some "rust-intrinsic") →
      st.no_mangle = true ∧ st.support_generics = false) := by
  obtain ⟨h1, h2⟩ := parseAttrs_flagsOk attrs st h
  have hnot := computeNoMangle_not st.abi
  constructor
  · intro hfam
    have hfalse : computeNoMangle st.abi = false :=
      (computeNoMangle_eq_false_iff st.abi).mpr hfam
    refine ⟨h1.trans hfalse, ?_⟩
    rw [h2]
    have := hnot.symm.trans hfalse
    simpa using this
  · intro ⟨ha, hb, hc⟩
    have hne : ¬ computeNoMangle st.abi = false := by
      intro hf
      rcases (computeNoMangle_eq_false_iff st.abi).mp hf with hx | hx | hx
      · exact ha hx
      · exact hb hx
      · exact hc hx
    have htrue : computeNoMangle st.abi = true := by
      cases hcm : computeNoMangle st.abi
      · exact absurd hcm hne
      · rfl
    refine ⟨h1.trans htrue, ?_⟩
    rw [h2]
    have := hnot.symm.trans htrue
    simpa using this

/-- Witness for C2 (amended) at `abi = "rust-call"`. -/
theorem C2_amended_witness :
    stRustCall.no_mangle = false ∧ stRustCall.support_generics = true :=
  (C2_amended_flags [("abi", "rust-call")] stRustCall rfl).1 (Or.inr (Or.inl rfl))

/-- C3 counterexample: with `abi = "Rust"` and a non-empty body (Export
mode), `mangles_symbol` is false, yet the emitted declaration does not
carry the `#[no_mangle]` directive — the source attaches the directive
when the flag is true, not when it is false. -/
theorem C3_counterexample :
    parseAttrs [("abi", "Rust")] = Except.ok stRust ∧
    stRust.no_mangle = false ∧
    reprfn [("abi", "Rust")] bodyFn =
      Except.ok (Expanded.exportFn "Rust" (exportOut stRust bodyFn)) ∧
    ¬ (exportOut stRust bodyFn).noMangle = true := by
  refine ⟨rfl, rfl, rfl, by simp [exportOut, stRust, initState]⟩

/-- C3 (amended): in Export mode the output carries the `#[no_mangle]`
directive exactly when `mangles_symbol` (the `no_mangle` flag) is true —
equivalently, the directive is absent exactly when the stored abi is the
default language convention or one of its two variants. -/
theorem C3_amended (attrs : List (String × String)) (i : FnInput) (st : ParseState)
    (h : parseAttrs attrs = Except.ok st)
    (hm : inferredMode st.mode i.stmts = Mode.Export) :
    reprfn attrs i = Except.ok (Expanded.exportFn (resolvedAbi st.abi) (exportOut st i)) ∧
    ((exportOut st i).noMangle = true ↔ st.no_mangle = true) ∧
    (st.no_mangle = false ↔
      (st.abi = some "Rust" ∨ st.abi = some "rust-call" ∨ st.abi = some "rust-intrinsic")) := by
  refine ⟨?_, Iff.rfl, ?_⟩
  · unfold reprfn
    rw [h]
    show Except.ok (synthesize st (inferredMode st.mode i.stmts) i) = _
    rw [hm]
    rfl
  · rw [(parseAttrs_flagsOk attrs st h).1]
    exact computeNoMangle_eq_false_iff st.abi

/-- Witness for C3 (amended) at `abi = "C"` with a non-empty body. -/
theorem C3_amended_witness :
    reprfn [("abi", "C")] bodyFn =
      Except.ok (Expanded.exportFn (resolvedAbi stC.abi) (exportOut stC bodyFn)) ∧
    ((exportOut stC bodyFn).noMangle = true ↔ stC.no_mangle = true) ∧
    (stC.no_mangle = false ↔
      (stC.abi = some "Rust" ∨ stC.abi = some "rust-call" ∨ stC.abi = some "rust-intrinsic")) :=
  C3_amended [("abi", "C")] bodyFn stC rfl rfl

/-- C4 counterexample: `abi = "none"` produces exactly the initial parser
state, the same state the parser is in when the key is omitted, and the
whole pipeline output is identical in the two cases — moreover that output
carries the default `"Rust"` convention, so no "no convention enforced"
outcome exists and the sentinel is not distinguishable from omission. -/
theorem C4_counterexample :
    parseAttrs [("abi", "none")] = Except.ok initState ∧
    parseAttrs [] = Except.ok initState ∧
    reprfn [("abi", "none")] emptyFn = reprfn [] emptyFn ∧
    reprfn [("abi", "none")] emptyFn =
      Except.ok (Expanded.foreignBlock "Rust" (importOut initState emptyFn)) := by
  exact ⟨rfl, rfl, rfl, rfl⟩

/-- C4 (amended): the sentinel `abi = "none"` leaves `Configuration.abi`
unset (and resets the flags to their defaults), which is exactly the state
produced by omitting the key; the pipeline output is identical with and
without the sentinel key, and an unset abi resolves to the default
`"Rust"` convention. -/
theorem C4_amended (st : ParseState) (i : FnInput) :
    processMeta st ("abi", "none") =
      Except.ok { st with abi := none, no_mangle := true, support_generics := false } ∧
    reprfn [("abi", "none")] i = reprfn [] i ∧
    resolvedAbi none = "Rust" :=
  ⟨rfl, rfl, rfl⟩

/-- C5: every identifier in the 31-entry registry passes `validate_abi`
unchanged; every string outside the registry is rejected with an
`InvalidAbi` error that carries the full 31-entry registry (the list the
source interpolates into the diagnostic message). -/
theorem C5_validate_registry (s : String) :
    (s ∈ ABIS → validate_abi s = Except.ok s) ∧
    (s ∉ ABIS →
      validate_abi s = Except.error (ParseError.invalidAbi s ABIS) ∧ ABIS.length = 31) := by
  constructor
  · intro hmem
    unfold validate_abi valid_abi
    rw [if_pos]
    exact List.elem_iff.mpr hmem
  · intro hmem
    refine ⟨?_, rfl⟩
    unfold validate_abi valid_abi
    rw [if_neg]
    intro hc
    exact hmem (List.elem_iff.mp hc)

/-- Witness for C5 at the registry member `"stdcall"` and the
non-member `"Pascal"`. -/
theorem C5_witness :
    validate_abi "stdcall" = Except.ok "stdcall" ∧
    (validate_abi "Pascal" = Except.error (ParseError.invalidAbi "Pascal" ABIS) ∧
      ABIS.length = 31) :=
  ⟨(C5_validate_registry "stdcall").1 (by decide),
   (C5_validate_registry "Pascal").2 (by decide)⟩

/-- C6: with `mode` unset, an empty body statement list infers Import and
a non-empty one infers Export; an explicitly set mode is used directly. -/
theorem C6_mode_inference (stmts : List String) (m : Mode) :
    (stmts = [] → inferredMode none stmts = Mode.Import) ∧
    (stmts ≠ [] → inferredMode none stmts = Mode.Export) ∧
    inferredMode (some m) stmts = m := by
  refine ⟨?_, ?_, rfl⟩
  · intro h
    subst h
    rfl
  · intro h
    cases stmts with
    | nil => exact absurd rfl h
    | cons a l => rfl

/-- Witness for C6 at an empty and a one-statement body. -/
theorem C6_witness :
    inferredMode none ([] : List String) = Mode.Import ∧
    inferredMode none ["return ;"] = Mode.Export :=
  ⟨(C6_mode_inference [] Mode.Export).1 rfl,
   (C6_mode_inference ["return ;"] Mode.Export).2.1 (by simp)⟩

/-- C7: a `mode` value other than the sentinel, `"export"` or `"import"`
makes the parser fail with an `InvalidMode` error carrying the offending
value and the three legal choices, while the sentinel leaves `mode`
unset. -/
theorem C7_mode_errors (st : ParseState) (v : String) (h : v ∉ modeChoices) :
    processMeta st ("mode", v) = Except.error (ParseError.invalidMode v modeChoices) ∧
    processMeta st ("mode", "none") = Except.ok { st with mode := none } := by
  refine ⟨?_, rfl⟩
  simp only [modeChoices, List.mem_cons, List.not_mem_nil, or_false, not_or] at h
  obtain ⟨h1, h2, h3⟩ := h
  unfold processMeta
  simp [h1, h2, h3]

/-- Witness for C7 at the illegal value `"fast"`. -/
theorem C7_witness :
    processMeta initState ("mode", "fast") =
      Except.error (ParseError.invalidMode "fast" modeChoices) ∧
    processMeta initState ("mode", "none") = Except.ok { initState with mode := none } :=
  C7_mode_errors initState "fast" (by decide)

/-- C8: in Export mode the emitted declaration carries the generic
parameter list and where clause exactly when `supports_generics` is true;
when the flag is false the declaration is emitted non-generic even if the
input declared generic parameters. -/
theorem C8_generics_iff (attrs : List (String × String)) (i : FnInput) (st : ParseState)
    (h : parseAttrs attrs = Except.ok st)
    (hm : inferredMode st.mode i.stmts = Mode.Export) :
    reprfn attrs i = Except.ok (Expanded.exportFn (resolvedAbi st.abi) (exportOut st i)) ∧
    ((exportOut st i).generics = some ⟨i.genParams, i.whereClause⟩ ↔
      st.support_generics = true) ∧
    (st.support_generics = false → (exportOut st i).generics = none) := by
  refine ⟨?_, ?_, ?_⟩
  · unfold reprfn
    rw [h]
    show Except.ok (synthesize st (inferredMode st.mode i.stmts) i) = _
    rw [hm]
    rfl
  · cases hg : st.support_generics <;> simp [exportOut, hg]
  · intro hg
    simp [exportOut, hg]

/-- Witness for C8 at `abi = "C"` with a generic const unsafe input: the
flag is false and the generics are dropped. -/
theorem C8_witness :
    reprfn [("abi", "C")] genericFn =
      Except.ok (Expanded.exportFn (resolvedAbi stC.abi) (exportOut stC genericFn)) ∧
    ((exportOut stC genericFn).generics = some ⟨genericFn.genParams, genericFn.whereClause⟩ ↔
      stC.support_generics = true) ∧
    (stC.support_generics = false → (exportOut stC genericFn).generics = none) :=
  C8_generics_iff [("abi", "C")] genericFn stC rfl rfl

/-- C9: the two capability flags co-vary — in the initial state and after
any successfully parsed attribute list, `mangles_symbol` is exactly the
negation of `supports_generics`. -/
theorem C9_flags_covary (attrs : List (String × String)) (st : ParseState)
    (h : parseAttrs attrs = Except.ok st) :
    initState.no_mangle = !initState.support_generics ∧
    st.no_mangle = !st.support_generics := by
  obtain ⟨h1, h2⟩ := parseAttrs_flagsOk attrs st h
  refine ⟨rfl, ?_⟩
  rw [h1, h2, computeNoMangle_not]

/-- Witness for C9 at the attribute list `abi = "C", name = "foo"`. -/
theorem C9_witness :
    initState.no_mangle = !initState.support_generics ∧
    stC.no_mangle = !stC.support_generics :=
  C9_flags_covary [("abi", "C"), ("name", "foo")] { stC with name := some "foo" } rfl

/-- C10: in Import mode, for every configuration and input, the emitted
foreign-block declaration never carries the `#[no_mangle]` directive and
drops the input's const-ness and unsafety qualifiers, regardless of the
resolved ABI or the capability flags. -/
theorem C10_import_qualifiers (attrs : List (String × String)) (i : FnInput) (st : ParseState)
    (h : parseAttrs attrs = Except.ok st)
    (hm : inferredMode st.mode i.stmts = Mode.Import) :
    reprfn attrs i = Except.ok (Expanded.foreignBlock (resolvedAbi st.abi) (importOut st i)) ∧
    (importOut st i).noMangle = false ∧
    (importOut st i).constness = false ∧
    (importOut st i).unsafety = false := by
  refine ⟨?_, rfl, rfl, rfl⟩
  unfold reprfn
  rw [h]
  show Except.ok (synthesize st (inferredMode st.mode i.stmts) i) = _
  rw [hm]
  rfl

/-- Witness for C10 at `mode = "import"` with a const unsafe generic
input whose qualifiers are dropped. -/
theorem C10_witness :
    reprfn [("mode", "import")] genericFn =
      Except.ok (Expanded.foreignBlock (resolvedAbi stImport.abi) (importOut stImport genericFn)) ∧
    (importOut stImport genericFn).noMangle = false ∧
    (importOut stImport genericFn).constness = false ∧
    (importOut stImport genericFn).unsafety = false :=
  C10_import_qualifiers [("mode", "import")] genericFn stImport rfl rfl

end Reprfn
